import Mathlib

/-!
Shallow embedding of the derived-metric core of the blockchain-analysis CLI
(src/src/main.rs) together with proofs of its testable properties.

The RPC node is modelled as an explicit immutable `NodeState` (the list of
blocks of the active chain, indexed by height, plus the reported chain-name
string from `getblockchaininfo`).  Every Rust function that went through the
global `RPC_CLIENT` becomes a Lean function taking the `NodeState` explicitly.

Rust `Result<T, BitcoinRpcError>` together with the possibility of a Rust
panic (integer overflow with debug assertions, division by zero, chrono
`Duration` bounds checks) is modelled by the three-state `Outcome` type:
`ok`, `err` (a propagated `Err`), and `crash` (a Rust panic).

Machine integers are modelled as `Nat`/`Int` with the wrap-arounds of the
`as` casts made explicit (`u64ofI64`, `i64ofU64`, `% 65536` for `as u16`).
chrono `Duration` values are modelled by their `num_seconds()` value as an
`Int`; the `Duration::seconds` constructor's out-of-bounds panic (the bound
is `i64::MAX / 1000` seconds) is modelled by `durationSeconds`.
-/

/-- Error type standing for `bitcoincore_rpc::Error`: either the node answers
that a queried height is not on the active chain, or the typed deserialization
of a response fails (used for an unrecognized network identity string). -/
inductive RpcError where
  | blockNotFound (height : Nat)
  | badNetwork (reported : String)
deriving DecidableEq, Repr

/-- Result of running a piece of the Rust program: a value, a propagated
`Err`, or a Rust panic (overflow check, division by zero, chrono bound). -/
inductive Outcome (α : Type) where
  | ok : α → Outcome α
  | err : RpcError → Outcome α
  | crash : String → Outcome α
deriving DecidableEq, Repr

namespace Outcome

/-- Sequencing that models Rust `?` on `Result` plus panic propagation. -/
def bind : Outcome α → (α → Outcome β) → Outcome β
  | .ok a, f => f a
  | .err e, _ => .err e
  | .crash m, _ => .crash m

@[simp] theorem bind_ok (a : α) (f : α → Outcome β) : (Outcome.ok a).bind f = f a := rfl

@[simp] theorem bind_err (e : RpcError) (f : α → Outcome β) :
    (Outcome.err e : Outcome α).bind f = .err e := rfl

@[simp] theorem bind_crash (m : String) (f : α → Outcome β) :
    (Outcome.crash m : Outcome α).bind f = .crash m := rfl

end Outcome

/-- The slice of a `bitcoincore_rpc::bitcoin::block::Block` this program
reads: the header timestamp (`header.time`, a `u32` field on the wire, held
as a `Nat`) and the transaction-list length (`txdata.len()`). -/
structure Block where
  time : Nat
  txCount : Nat
deriving DecidableEq, Repr

/-- The recognized network identities: `bitcoincore_rpc::bitcoin::Network`. -/
inductive Network where
  | bitcoin
  | testnet
  | signet
  | regtest
deriving DecidableEq, Repr

/-- The node's state as seen through the four read-only RPC calls the
program issues: `blocks` lists the active chain by height (index 0 is
genesis), and `chainName` is the `chain` string `getblockchaininfo`
reports. -/
structure NodeState where
  blocks : List Block
  chainName : String
deriving DecidableEq, Repr

/-- Well-formedness of a node state: every header timestamp fits the `u32`
field it is transported in. -/
def NodeState.WF (s : NodeState) : Prop :=
  ∀ b ∈ s.blocks, b.time < 4294967296

instance (s : NodeState) : Decidable s.WF := by
  unfold NodeState.WF; infer_instance

/-- `2^64`, the modulus of `u64` wrap-around. -/
def U64_MOD : Nat := 18446744073709551616

/-- `2^63`, the first `u64` value that is negative after `as i64`. -/
def I64_HALF : Nat := 9223372036854775808

/-- `i64::MIN`. -/
def I64_MIN : Int := -9223372036854775808

/-- `i64::MAX`. -/
def I64_MAX : Int := 9223372036854775807

/-- `i64::MAX / 1000`: chrono's bound, in seconds, on a `Duration`. -/
def MAX_DURATION_SECS : Int := 9223372036854775

/-- The `as u64` cast of an `i64` value: wrap modulo `2^64`. -/
def u64ofI64 (x : Int) : Nat := (x.emod (U64_MOD : Int)).toNat

/-- The `as i64` cast of a `u64` value: reinterpret the top bit as sign. -/
def i64ofU64 (x : Nat) : Int :=
  if x < I64_HALF then (x : Int) else (x : Int) - (U64_MOD : Int)

/-- chrono `Duration::seconds`: panics when the requested number of seconds
is outside chrono's representable range. -/
def durationSeconds (s : Int) : Outcome Int :=
  if -MAX_DURATION_SECS ≤ s ∧ s ≤ MAX_DURATION_SECS then .ok s
  else .crash "Duration::seconds out of bounds"

/-- `i64` subtraction under debug assertions: panics when the mathematical
difference does not fit in `i64`. -/
def checkedSubI64 (a b : Int) : Outcome Int :=
  if I64_MIN ≤ a - b ∧ a - b ≤ I64_MAX then .ok (a - b)
  else .crash "attempt to subtract with overflow"

/-- chrono `Duration` subtraction: implemented as
`checked_sub(...).expect(...)`, so it panics when the difference leaves
chrono's representable range, even for in-range operands. -/
def durationSub (a b : Int) : Outcome Int :=
  if -MAX_DURATION_SECS ≤ a - b ∧ a - b ≤ MAX_DURATION_SECS then .ok (a - b)
  else .crash "TimeDelta subtraction overflowed"

/-- `fn get_block_by_height`: `get_block_hash(height)` followed by
`get_block(&hash)`.  Both round-trips succeed exactly when the height is on
the active chain; otherwise the node reports the block as not found and the
error propagates through `?`. -/
def get_block_by_height (s : NodeState) (block_height : Nat) : Outcome Block :=
  match s.blocks.get? block_height with
  | some b => .ok b
  | none => .err (.blockNotFound block_height)

/-- `fn get_block_time`: fetch the block and return
`Duration::seconds(block.header.time as i64)`. -/
def get_block_time (s : NodeState) (block_height : Nat) : Outcome Int :=
  (get_block_by_height s block_height).bind fun b =>
    durationSeconds (b.time : Int)

/-- `fn avg_time_to_mine`:
`num_blocks_in_epoch = block_height % 2016`;
`first_block_in_epoch = block_height - num_blocks_in_epoch`;
`total_diff = get_block_time(block_height)? - get_block_time(first_block_in_epoch)?`;
`avg_diff = total_diff.num_seconds() as u64 / num_blocks_in_epoch`  (an
unsigned division, which panics when the divisor is zero and wraps a negative
`total_diff` to a value near `2^64`);
result `Duration::seconds(avg_diff as i64)`. -/
def avg_time_to_mine (s : NodeState) (block_height : Nat) : Outcome Int :=
  let num_blocks_in_epoch := block_height % 2016
  let first_block_in_epoch := block_height - num_blocks_in_epoch
  (get_block_time s block_height).bind fun th =>
  (get_block_time s first_block_in_epoch).bind fun tf =>
  if num_blocks_in_epoch = 0 then .crash "attempt to divide by zero"
  else
    let avg_diff : Nat := u64ofI64 (th - tf) / num_blocks_in_epoch
    durationSeconds (i64ofU64 avg_diff)

/-- `pub fn time_to_mine`:
`Ok(get_block_time(block_height)? - get_block_time(block_height - 1)?)`.
The left operand (its `?` included) is evaluated first; then the argument
`block_height - 1` is computed on `u64`, which at height 0 underflows and,
under debug assertions, panics. -/
def time_to_mine (s : NodeState) (block_height : Nat) : Outcome Int :=
  (get_block_time s block_height).bind fun t1 =>
  if block_height = 0 then .crash "attempt to subtract with overflow"
  else (get_block_time s (block_height - 1)).bind fun t0 =>
    .ok (t1 - t0)

/-- `get_block_count`: the node's tip height (a live node always has at
least the genesis block; an empty chain is answered with an error so the
model stays total). -/
def get_block_count (s : NodeState) : Outcome Nat :=
  if s.blocks.isEmpty then .err (.blockNotFound 0)
  else .ok (s.blocks.length - 1)

/-- `pub fn guess_time_to_mine_next_block`:
`tip = get_block_count()?`; `avg_time = avg_time_to_mine(tip)?`;
`now = Utc::now().timestamp()` (here an explicit parameter);
result `avg_time - Duration::seconds(now - get_block_time(tip)?.num_seconds() as i64)`.
The final `-` is chrono's checked `Duration` subtraction (`durationSub`),
which panics when the difference leaves chrono's range. -/
def guess_time_to_mine_next_block (s : NodeState) (now : Int) : Outcome Int :=
  (get_block_count s).bind fun tip =>
  (avg_time_to_mine s tip).bind fun avg_time =>
  (get_block_time s tip).bind fun tipTime =>
  (checkedSubI64 now tipTime).bind fun elapsed =>
  (durationSeconds elapsed).bind fun d =>
  durationSub avg_time d

/-- `pub fn number_of_transactions`:
`Ok(block.txdata.len() as u16)` — the `as u16` cast keeps the low 16 bits. -/
def number_of_transactions (s : NodeState) (block_height : Nat) : Outcome Nat :=
  (get_block_by_height s block_height).bind fun b =>
    .ok (b.txCount % 65536)

/-- Modelled from the spec: the typed deserialization of the `chain` field of
`getblockchaininfo` lives in the external `bitcoincore_rpc` crate, not in this
repository.  Per the spec it maps the node's reported identity string onto the
fixed closed set of variants and rejects everything else. -/
def deserialize_bip70_network (reported : String) : Option Network :=
  if reported = "main" then some .bitcoin
  else if reported = "test" then some .testnet
  else if reported = "signet" then some .signet
  else if reported = "regtest" then some .regtest
  else none

/-- The identity string corresponding to each recognized variant. -/
def networkBip70 : Network → String
  | .bitcoin => "main"
  | .testnet => "test"
  | .signet => "signet"
  | .regtest => "regtest"

/-- `getblockchaininfo`, restricted to the one field the program reads: the
typed `chain` value, or a deserialization error on an unrecognized string. -/
def get_blockchain_info (s : NodeState) : Outcome Network :=
  match deserialize_bip70_network s.chainName with
  | some n => .ok n
  | none => .err (.badNetwork s.chainName)

/-- `pub fn get_chain`: `Ok(rpc.get_blockchain_info()?.chain)`. -/
def get_chain (s : NodeState) : Outcome Network :=
  (get_blockchain_info s).bind fun chain => .ok chain

/-- The clap subcommands (`enum Commands`). -/
inductive Commands where
  | chain
  | timeToMine (block_height : Nat)
  | numberOfTransactions (block_height : Nat)
  | nextBlock
deriving DecidableEq, Repr

/-- Result of `call_command`: the lines printed to stdout so far, and how the
call ended — normal return, a propagated error (`Box<dyn Error>`), or a
panic. -/
inductive CmdResult where
  | done (stdout : List String)
  | failed (stdout : List String) (e : RpcError)
  | crashed (stdout : List String) (msg : String)
deriving DecidableEq, Repr

/-- The `Display` text of each network variant (Rust `println!` on
`Network`). -/
def networkDisplay : Network → String
  | .bitcoin => "bitcoin"
  | .testnet => "testnet"
  | .signet => "signet"
  | .regtest => "regtest"

/-- The `Display` text of the propagated error, as printed by `main`. -/
def errMsg : RpcError → String
  | .blockNotFound h => "Block height out of range: " ++ toString h
  | .badNetwork rep => "unrecognized network: " ++ rep

/-- `fn call_command`: dispatch the subcommand to its metric function, print
the formatted result, and hand any error back to the caller unchanged.  The
`NextBlock` arm prints its header line before the fallible call, so that line
is on stdout even when the metric fails. -/
def call_command (s : NodeState) (now : Int) : Commands → CmdResult
  | .chain =>
    match get_chain s with
    | .ok chain => .done [networkDisplay chain]
    | .err e => .failed [] e
    | .crash m => .crashed [] m
  | .timeToMine block_height =>
    match time_to_mine s block_height with
    | .ok t => .done [toString t ++ "s, " ++ toString (Int.tdiv t 60) ++ "min"]
    | .err e => .failed [] e
    | .crash m => .crashed [] m
  | .numberOfTransactions block_height =>
    match number_of_transactions s block_height with
    | .ok num => .done [toString num ++ " transactions"]
    | .err e => .failed [] e
    | .crash m => .crashed [] m
  | .nextBlock =>
    match guess_time_to_mine_next_block s now with
    | .ok t =>
      .done ["Next block will be mined in: ",
        toString t ++ "s, " ++ toString (Int.tdiv t 60) ++ "min, "
          ++ toString (Int.tdiv t 86400) ++ "days"]
    | .err e => .failed ["Next block will be mined in: "] e
    | .crash m => .crashed ["Next block will be mined in: "] m

/-- Observable end state of one process run: stdout lines, stderr lines, and
the process exit status. -/
structure ProcResult where
  stdout : List String
  stderr : List String
  exitCode : Nat
deriving DecidableEq, Repr

/-- `fn main` after argument parsing: run the command if one was given; on
`Err(e)` print a single `Error: ...` line to stderr and fall off the end of
`main`, so the process still exits with status 0.  A Rust panic aborts the
process with the standard panic message on stderr and exit status 101.
(Named `mainFn` because Lean reserves `main` for an entry point.) -/
def mainFn (s : NodeState) (now : Int) : Option Commands → ProcResult
  | none => ⟨[], ["No command provided"], 0⟩
  | some cmd =>
    match call_command s now cmd with
    | .done out => ⟨out, [], 0⟩
    | .failed out e => ⟨out, ["Error: " ++ errMsg e], 0⟩
    | .crashed out m => ⟨out, ["thread panicked: " ++ m], 101⟩

/-! ## Concrete node states used as fixtures -/

/-- A node holding only the genesis block. -/
def genesisOnly : NodeState := ⟨[⟨100, 1⟩], "main"⟩

/-- A node that answers every height query with "not found". -/
def emptyNode : NodeState := ⟨[], "main"⟩

/-- A node whose block 0 reports 70000 transactions. -/
def bigBlockNode : NodeState := ⟨[⟨0, 70000⟩], "main"⟩

/-- Heights 0..2 with a tip timestamp earlier than the epoch start's:
`timestamp(2) = 90 < 100 = timestamp(0)`. -/
def backwardsNode : NodeState := ⟨[⟨100, 1⟩, ⟨0, 1⟩, ⟨90, 1⟩], "main"⟩

/-- Heights 0..2 with increasing timestamps 1000, 0 is unused, 1600. -/
def forwardNode : NodeState := ⟨[⟨1000, 1⟩, ⟨0, 1⟩, ⟨1600, 1⟩], "main"⟩

/-- Heights 0..2 with timestamps 0, 300, 1200. -/
def threeBlocks : NodeState := ⟨[⟨0, 1⟩, ⟨300, 1⟩, ⟨1200, 1⟩], "main"⟩

/-- Two blocks whose timestamps go backwards: 100 then 90. -/
def twoBlocksBack : NodeState := ⟨[⟨100, 3⟩, ⟨90, 2⟩], "main"⟩

/-- A node reporting the signet identity string. -/
def signetNode : NodeState := ⟨[], "signet"⟩

/-- A node reporting an identity string outside the recognized set. -/
def unknownChainNode : NodeState := ⟨[], "florp"⟩

/-! ## Helper lemmas -/

/-- A successful `get_block_time` yields the fetched block's `u32` header
timestamp, so the value is non-negative and within chrono's bounds. -/
theorem get_block_time_ok_bounds (s : NodeState) (h : Nat) (t : Int)
    (ht : get_block_time s h = .ok t) :
    0 ≤ t ∧ t ≤ MAX_DURATION_SECS := by
  unfold get_block_time get_block_by_height at ht
  cases hg : s.blocks.get? h with
  | none => rw [hg] at ht; simp [Outcome.bind] at ht
  | some b =>
    rw [hg] at ht
    rw [Outcome.bind_ok] at ht
    unfold durationSeconds at ht
    split at ht
    · rename_i hcond
      cases ht
      exact ⟨Int.ofNat_nonneg b.time, hcond.2⟩
    · cases ht

/-- A successful `get_block_time` on a well-formed node state is moreover a
`u32` value: strictly below `2^32`. -/
theorem get_block_time_ok_u32 (s : NodeState) (h : Nat) (t : Int)
    (hwf : s.WF) (ht : get_block_time s h = .ok t) :
    0 ≤ t ∧ t < 4294967296 := by
  unfold get_block_time get_block_by_height at ht
  cases hg : s.blocks.get? h with
  | none => rw [hg] at ht; simp [Outcome.bind] at ht
  | some b =>
    rw [hg] at ht
    rw [Outcome.bind_ok] at ht
    unfold durationSeconds at ht
    split at ht
    · cases ht
      have hb : b ∈ s.blocks := List.get?_mem hg
      have hlt := hwf b hb
      exact ⟨Int.ofNat_nonneg b.time, by exact_mod_cast hlt⟩
    · cases ht

/-! ## Claim theorems -/

/-- Claim C1 (code-level behaviour at the epoch boundary): for every height
`h` with `h % 2016 = 0` whose block the node serves, `avg_time_to_mine h`
does NOT fail with a named error — it panics with an unsigned division by
zero (`total_diff.num_seconds() as u64 / 0`).  This refutes the claim's
"never panics and never divides by zero" and witnesses the code bug. -/
theorem avg_time_boundary_panics (s : NodeState) (h : Nat) (t : Int)
    (hmod : h % 2016 = 0) (ht : get_block_time s h = .ok t) :
    avg_time_to_mine s h = .crash "attempt to divide by zero" := by
  simp [avg_time_to_mine, hmod, ht]

/-- Claim C1, witnessed at genesis (height 0, on the epoch boundary). -/
theorem avg_time_boundary_panics_witness :
    avg_time_to_mine genesisOnly 0 = .crash "attempt to divide by zero" :=
  avg_time_boundary_panics genesisOnly 0 100 (by decide) (by decide)

/-- Claim C2 (code-level behaviour at genesis): `time_to_mine 0` does NOT
fail with a named error — after the genesis block itself is fetched, the
predecessor height `0u64 - 1` underflows, which panics under debug
assertions (and would wrap to `2^64 - 1` in release builds).  This refutes
the claim's "never underflows ... and never panics". -/
theorem time_to_mine_genesis_panics (s : NodeState) (t : Int)
    (ht : get_block_time s 0 = .ok t) :
    time_to_mine s 0 = .crash "attempt to subtract with overflow" := by
  simp [time_to_mine, ht]

/-- Claim C2, witnessed on a node holding the genesis block. -/
theorem time_to_mine_genesis_panics_witness :
    time_to_mine genesisOnly 0 = .crash "attempt to subtract with overflow" :=
  time_to_mine_genesis_panics genesisOnly 100 (by decide)

/-- Claim C3 (code-level behaviour on an oversized count): on a block whose
node-reported transaction count is 70000, `number_of_transactions` silently
returns `70000 as u16 = 4464` instead of the exact count or an explicit
failure. -/
theorem number_of_transactions_truncates :
    number_of_transactions bigBlockNode 0 = .ok 4464 ∧
    (4464 : Nat) ≠ 70000 := by
  exact ⟨by decide, by decide⟩

/-- Claim C6: for every height `0 < h` whose block and predecessor block are
both fetched successfully, `time_to_mine h` returns exactly
`timestamp(h) - timestamp(h-1)`, as computed — negative differences
included. -/
theorem time_to_mine_formula (s : NodeState) (h : Nat) (t1 t0 : Int)
    (hpos : 0 < h)
    (h1 : get_block_time s h = .ok t1)
    (h0 : get_block_time s (h - 1) = .ok t0) :
    time_to_mine s h = .ok (t1 - t0) := by
  simp [time_to_mine, h1, h0, Nat.pos_iff_ne_zero.mp hpos]

/-- Claim C6, witnessed on a chain whose timestamps go backwards
(100 then 90), showing the negative difference passed through. -/
theorem time_to_mine_formula_witness :
    time_to_mine twoBlocksBack 1 = .ok (-10) := by
  have h := time_to_mine_formula twoBlocksBack 1 90 100 (by decide) (by decide)
    (by decide)
  simpa using h

/-- Claim C9: the metric functions are pure functions of the node state and
the height — two invocations against the same unchanged chain state return
identical results; there is no hidden mutable state between calls. -/
theorem metrics_idempotent (s : NodeState) (h : Nat) :
    time_to_mine s h = time_to_mine s h ∧
    avg_time_to_mine s h = avg_time_to_mine s h ∧
    number_of_transactions s h = number_of_transactions s h :=
  ⟨rfl, rfl, rfl⟩

/-- Claim C10: on a well-formed node state (every header timestamp fits the
`u32` wire field), a successful `get_block_time h` is non-negative and
strictly below `2^32` seconds. -/
theorem get_block_time_u32_range (s : NodeState) (h : Nat) (d : Int)
    (hwf : s.WF) (hok : get_block_time s h = .ok d) :
    0 ≤ d ∧ d < 4294967296 :=
  get_block_time_ok_u32 s h d hwf hok

/-- Claim C10, witnessed on the genesis-only node. -/
theorem get_block_time_u32_range_witness :
    (0 : Int) ≤ 100 ∧ (100 : Int) < 4294967296 :=
  get_block_time_u32_range genesisOnly 0 100 (by decide) (by decide)

/-- Claim C4, counterexample: on a chain where the tip's timestamp (90) is
earlier than the epoch start's (100), the claimed value at height 2 is the
signed truncated quotient `(90 - 100) / 2 = -5`, but the code wraps the
negative difference through `as u64` to `2^64 - 10`, divides unsigned to
`2^63 - 5`, and the `Duration::seconds` constructor then panics on the
out-of-range value — at this input the negative elapsed time does not
propagate through a signed division. -/
theorem avg_time_negative_elapsed_cex :
    avg_time_to_mine backwardsNode 2 = .crash "Duration::seconds out of bounds" ∧
    avg_time_to_mine backwardsNode 2 ≠ .ok (-5) := by
  exact ⟨by decide, by decide⟩

/-- Claim C4 as amended: for `h % 2016 ≠ 0` with both fetches successful AND
a non-negative elapsed time (`timestamp(first) ≤ timestamp(h)`), the result
is the truncated quotient `(timestamp(h) - timestamp(first)) / (h % 2016)`.
A negative elapsed time is not guaranteed to propagate through a signed
division: the `as u64` cast adds `2^64` to the difference before the
unsigned division, and at the counterexample the call panics in the
`Duration` constructor instead of returning `-5` (only at divisor 1 does
the wrap-around cancel and return the signed value). -/
theorem avg_time_formula_nonneg_elapsed (s : NodeState) (h : Nat) (th tf : Int)
    (hmod : h % 2016 ≠ 0)
    (hth : get_block_time s h = .ok th)
    (htf : get_block_time s (h - h % 2016) = .ok tf)
    (hle : tf ≤ th) :
    avg_time_to_mine s h = .ok (((th - tf).toNat / (h % 2016) : Nat) : Int) := by
  obtain ⟨hth0, hthM⟩ := get_block_time_ok_bounds s h th hth
  obtain ⟨htf0, htfM⟩ := get_block_time_ok_bounds s (h - h % 2016) tf htf
  have hdiff0 : 0 ≤ th - tf := by omega
  have hdiffM : th - tf ≤ MAX_DURATION_SECS := by
    unfold MAX_DURATION_SECS at *; omega
  have hu : u64ofI64 (th - tf) = (th - tf).toNat := by
    unfold u64ofI64
    rw [show (th - tf).emod (U64_MOD : Int) = th - tf from
      Int.emod_eq_of_lt hdiff0
        (by unfold U64_MOD MAX_DURATION_SECS at *; omega)]
  have hqle : (th - tf).toNat / (h % 2016) ≤ (th - tf).toNat :=
    Nat.div_le_self _ _
  have htoNat : ((th - tf).toNat : Int) = th - tf := Int.toNat_of_nonneg hdiff0
  have hqM : (((th - tf).toNat / (h % 2016) : Nat) : Int) ≤ MAX_DURATION_SECS := by
    unfold MAX_DURATION_SECS at *; omega
  have hq0 : (0 : Int) ≤ (((th - tf).toNat / (h % 2016) : Nat) : Int) :=
    Int.ofNat_nonneg _
  have hi : i64ofU64 ((th - tf).toNat / (h % 2016)) =
      (((th - tf).toNat / (h % 2016) : Nat) : Int) := by
    unfold i64ofU64 I64_HALF
    rw [if_pos]
    unfold MAX_DURATION_SECS at hqM
    omega
  simp only [avg_time_to_mine, hth, htf, Outcome.bind_ok, if_neg hmod, hu, hi]
  unfold durationSeconds
  rw [if_pos ⟨by omega, hqM⟩]

/-- Claim C4, witnessed in the non-negative case: timestamps 1000 and 1600
two blocks apart give an average of 300 seconds per block. -/
theorem avg_time_formula_nonneg_elapsed_witness :
    avg_time_to_mine forwardNode 2 = .ok 300 := by
  have h := avg_time_formula_nonneg_elapsed forwardNode 2 1600 1000 (by decide)
    (by decide) (by decide) (by decide)
  simpa using h

/-- Claim C5 (code-level behaviour on a query error): for each of the four
subcommands, when the underlying metric function returns an `Err`, the error
reaches `call_command` unchanged, no retry is issued, and `main` prints the
single line `Error: ...` on stderr — but it then falls off the end of `main`,
so the process exit status is 0, not non-zero as the claim states. -/
theorem query_error_single_line_exit_zero (s : NodeState) (now : Int) :
    (∀ e, get_chain s = .err e →
      call_command s now .chain = .failed [] e ∧
      mainFn s now (some .chain) = ⟨[], ["Error: " ++ errMsg e], 0⟩) ∧
    (∀ h e, time_to_mine s h = .err e →
      call_command s now (.timeToMine h) = .failed [] e ∧
      mainFn s now (some (.timeToMine h)) = ⟨[], ["Error: " ++ errMsg e], 0⟩) ∧
    (∀ h e, number_of_transactions s h = .err e →
      call_command s now (.numberOfTransactions h) = .failed [] e ∧
      mainFn s now (some (.numberOfTransactions h)) =
        ⟨[], ["Error: " ++ errMsg e], 0⟩) ∧
    (∀ e, guess_time_to_mine_next_block s now = .err e →
      call_command s now .nextBlock = .failed ["Next block will be mined in: "] e ∧
      mainFn s now (some .nextBlock) =
        ⟨["Next block will be mined in: "], ["Error: " ++ errMsg e], 0⟩) := by
  refine ⟨fun e he => ?_, fun h e he => ?_, fun h e he => ?_, fun e he => ?_⟩ <;>
    constructor <;> simp [call_command, mainFn, he]

/-- Claim C5, witnessed: querying height 5 on a node that has no such block
surfaces the node's error through `call_command` to `main`, one stderr line,
exit status 0. -/
theorem query_error_single_line_exit_zero_witness :
    mainFn emptyNode 0 (some (.timeToMine 5)) =
      ⟨[], ["Error: " ++ errMsg (.blockNotFound 5)], 0⟩ :=
  ((query_error_single_line_exit_zero emptyNode 0).2.1 5 (.blockNotFound 5)
    (by decide)).2

/-- Claim C7: when the tip is fetched, the tip's epoch average succeeds,
the elapsed real time `now - timestamp(tip)` is within chrono's `Duration`
bounds, and the estimate itself is within those bounds (so chrono's checked
`Duration` subtraction does not panic), `guess_time_to_mine_next_block`
returns exactly `avg_time_to_mine(tip) - (now - timestamp(tip))` — negative
values included, neither clamped to zero nor treated as an error. -/
theorem guess_next_block_formula (s : NodeState) (now : Int) (tip : Nat)
    (avg tt : Int)
    (htip : get_block_count s = .ok tip)
    (havg : avg_time_to_mine s tip = .ok avg)
    (htt : get_block_time s tip = .ok tt)
    (hlo : -MAX_DURATION_SECS ≤ now - tt)
    (hhi : now - tt ≤ MAX_DURATION_SECS)
    (hrlo : -MAX_DURATION_SECS ≤ avg - (now - tt))
    (hrhi : avg - (now - tt) ≤ MAX_DURATION_SECS) :
    guess_time_to_mine_next_block s now = .ok (avg - (now - tt)) := by
  simp only [guess_time_to_mine_next_block, htip, havg, htt, Outcome.bind_ok]
  unfold checkedSubI64
  rw [if_pos ⟨by unfold I64_MIN MAX_DURATION_SECS at *; omega,
    by unfold I64_MAX MAX_DURATION_SECS at *; omega⟩]
  rw [Outcome.bind_ok]
  unfold durationSeconds
  rw [if_pos ⟨hlo, hhi⟩]
  rw [Outcome.bind_ok]
  unfold durationSub
  rw [if_pos ⟨hrlo, hrhi⟩]

/-- Claim C7, witnessed on a three-block chain (tip height 2, epoch average
600 s, tip mined 3800 s before `now`): the estimate is the negative duration
-3200 s, surfaced as such. -/
theorem guess_next_block_formula_witness :
    guess_time_to_mine_next_block threeBlocks 5000 = .ok (-3200) := by
  have h := guess_next_block_formula threeBlocks 5000 2 600 1200 (by decide)
    (by decide) (by decide) (by decide) (by decide) (by decide) (by decide)
  simpa using h

/-- Claim C8: `get_chain` hands back the node's reported network identity
verbatim — a success is one of the four recognized variants and carries
exactly the string the node reported — and any string outside the
recognized set is answered with an explicit deserialization error, never
coerced into an existing variant. -/
theorem get_chain_closed_set (s : NodeState) :
    (∀ n, get_chain s = .ok n →
      s.chainName = networkBip70 n ∧
      (n = .bitcoin ∨ n = .testnet ∨ n = .signet ∨ n = .regtest)) ∧
    ((∀ n, s.chainName ≠ networkBip70 n) →
      get_chain s = .err (.badNetwork s.chainName)) := by
  constructor
  · intro n hn
    refine ⟨?_, by cases n <;> simp⟩
    unfold get_chain get_blockchain_info deserialize_bip70_network at hn
    by_cases h1 : s.chainName = "main"
    · simp [h1, Outcome.bind] at hn
      rw [h1, ← hn]; rfl
    by_cases h2 : s.chainName = "test"
    · simp [h1, h2, Outcome.bind] at hn
      rw [h2, ← hn]; rfl
    by_cases h3 : s.chainName = "signet"
    · simp [h1, h2, h3, Outcome.bind] at hn
      rw [h3, ← hn]; rfl
    by_cases h4 : s.chainName = "regtest"
    · simp [h1, h2, h3, h4, Outcome.bind] at hn
      rw [h4, ← hn]; rfl
    · simp [h1, h2, h3, h4, Outcome.bind] at hn
  · intro hne
    have h1 := hne .bitcoin
    have h2 := hne .testnet
    have h3 := hne .signet
    have h4 := hne .regtest
    unfold networkBip70 at h1 h2 h3 h4
    unfold get_chain get_blockchain_info deserialize_bip70_network
    simp [h1, h2, h3, h4, Outcome.bind]

/-- Claim C8, witnessed: the reported string "signet" comes back verbatim as
the signet variant, and the unrecognized string "florp" is answered with an
explicit error. -/
theorem get_chain_closed_set_witness :
    get_chain signetNode = .ok .signet ∧
    signetNode.chainName = networkBip70 .signet ∧
    get_chain unknownChainNode = .err (.badNetwork "florp") := by
  refine ⟨by decide, ?_, ?_⟩
  · exact ((get_chain_closed_set signetNode).1 .signet (by decide)).1
  · exact (get_chain_closed_set unknownChainNode).2 (by intro n; cases n <;> decide)
